import Mathlib

/-!
# Verification of `scraper.py` (Amazon2.0 repository)

A shallow embedding of `src/scraper.py` in Lean 4, together with theorems
settling the specification claims about it.

Modelling conventions:
* A BeautifulSoup `find` result is an `Option`: `none` means no matching
  element.  Nested finds become nested `Option`s, matching the nesting of
  the `if` guards in the Python source.
* An `<a>` tag carries its text and an optional `href` attribute.
* Python's `.strip()` is modelled by `pyStrip`, an executable
  drop-whitespace-at-both-ends function on the character list.
* `requests.get` is an external oracle `fetch : String → Option Page`;
  `none` stands for a raised `requests.exceptions.RequestException`
  (network error / timeout / non-2xx via `raise_for_status`).
* `requests.post` inside `send_to_discord` is an oracle `PostResult`:
  either a status code or a raised transport exception.
* The `while page_num <= max_pages` loop increments `page_num` on every
  continuing iteration, so it is the countdown loop on
  `remaining = max_pages - page_num + 1`; `runScrape` recurses on that
  countdown, starting from `max_pages.toNat` (since `page_num` starts at 1).
-/

/-- Python's `str.strip()`: remove leading and trailing whitespace. -/
def pyStrip (s : String) : String :=
  ⟨((s.data.dropWhile Char.isWhitespace).reverse.dropWhile Char.isWhitespace).reverse⟩

/-- An `<a>` element: its (un-stripped) text and optional `href` attribute. -/
structure ATag where
  text : String
  href : Option String
deriving Repr, DecidableEq

/-- One `article.thread--card` listing fragment on a HotUKDeals page, as the
nested `find` calls in lines 99-123 of `scraper.py` see it:
`titleH2` is `h2.thread-title` and, inside it, `a.cept-deal-title`;
`priceTag` is the text of `span.thread-price`; `heatTag` the text of
`span.cept-vote-temp`; `imageTag` is `img.thread-image` with its optional
`src` attribute. -/
structure HukdProduct where
  titleH2 : Option (Option ATag)
  priceTag : Option String
  heatTag : Option String
  imageTag : Option (Option String)
deriving Repr, DecidableEq

/-- One `div.ld-card.ld-card--deal` listing fragment on a LatestDeals page
(lines 222-246): `titleH2` is `h2.ld-card__title` containing
`a.ld-card__link`; `priceTag` is `span.ld-card__price` text; `likesTag` is
`span.js-likes-count` text; `imageTag` is `img.ld-card__image` with its
optional `src`. -/
structure LdProduct where
  titleH2 : Option (Option ATag)
  priceTag : Option String
  likesTag : Option String
  imageTag : Option (Option String)
deriving Repr, DecidableEq

/-- The raw fields a HotUKDeals fragment yields (lines 88-123): the local
variables `title`, `link`, `price`, `heat`, `image_url`, `discount_info`
after the extraction block. -/
structure HukdFields where
  title : String
  link : String
  price : String
  heat : String
  image_url : String
  discount_info : String
deriving Repr, DecidableEq

/-- The raw fields a LatestDeals fragment yields (lines 211-246): the local
variables `title`, `link`, `price`, `likes`, `image_url`, `discount_info`. -/
structure LdFields where
  title : String
  link : String
  price : String
  likes : String
  image_url : String
  discount_info : String
deriving Repr, DecidableEq

/-- Extraction block of `scrape_hotukdeals` (lines 88-123).  Every variable
is initialised to `"N/A"` (`""` for `image_url`) and overwritten only when
the corresponding element/attribute is found; `discount_info` is never
overwritten. -/
def hukdFields (p : HukdProduct) : HukdFields :=
  let title := match p.titleH2 with
    | some (some a) => pyStrip a.text
    | _ => "N/A"
  let link := match p.titleH2 with
    | some (some a) => match a.href with
      | some h => h
      | none => "N/A"
    | _ => "N/A"
  let price := match p.priceTag with
    | some t => pyStrip t
    | none => "N/A"
  let heat := match p.heatTag with
    | some t => pyStrip t
    | none => "N/A"
  let image_url := match p.imageTag with
    | some (some s) => s
    | _ => ""
  ⟨title, link, price, heat, image_url, "N/A"⟩

/-- Extraction block of `scrape_latestdeals` (lines 211-246).  Identical in
shape to `hukdFields` except the metric variable `likes` is initialised to
`"0"` (line 216), not `"N/A"`. -/
def ldFields (p : LdProduct) : LdFields :=
  let title := match p.titleH2 with
    | some (some a) => pyStrip a.text
    | _ => "N/A"
  let link := match p.titleH2 with
    | some (some a) => match a.href with
      | some h => h
      | none => "N/A"
    | _ => "N/A"
  let price := match p.priceTag with
    | some t => pyStrip t
    | none => "N/A"
  let likes := match p.likesTag with
    | some t => pyStrip t
    | none => "0"
  let image_url := match p.imageTag with
    | some (some s) => s
    | _ => ""
  ⟨title, link, price, likes, image_url, "N/A"⟩

/-- The `deal_item` dictionary built at lines 126-133 / 249-256. -/
structure DealItem where
  title : String
  price : String
  link : String
  image_url : String
  metric_info : String
  discount_info : String
deriving Repr, DecidableEq

/-- Lines 125-137: the record is assembled and collected exactly when none of
`title`, `link`, `price` is `"N/A"`; otherwise the fragment is skipped
(`none`).  `metric_info` is the f-string `f"🔥 {heat} Heat"`. -/
def processHukdProduct (p : HukdProduct) : Option DealItem :=
  let f := hukdFields p
  if f.title ≠ "N/A" ∧ f.link ≠ "N/A" ∧ f.price ≠ "N/A" then
    some ⟨f.title, f.price, f.link, f.image_url,
          "🔥 " ++ f.heat ++ " Heat", f.discount_info⟩
  else
    none

/-- Lines 248-260: same gate for LatestDeals; `metric_info` is
`f"👍 {likes} Likes"`. -/
def processLdProduct (p : LdProduct) : Option DealItem :=
  let f := ldFields p
  if f.title ≠ "N/A" ∧ f.link ≠ "N/A" ∧ f.price ≠ "N/A" then
    some ⟨f.title, f.price, f.link, f.image_url,
          "👍 " ++ f.likes ++ " Likes", f.discount_info⟩
  else
    none

/-- One entry of the embed's `fields` list (lines 24-34). -/
structure EmbedField where
  name : String
  value : String
  inl : Bool
deriving Repr, DecidableEq

/-- The Discord embed built by `send_to_discord` (lines 19-34). -/
structure DiscordEmbed where
  title : String
  url : String
  color : Nat
  fields : List EmbedField
  thumbnail_url : String
deriving Repr, DecidableEq

/-- Lines 19-34: the embed starts with the Price and Source fields; a
`Discount Info` field is appended when `discount_info` is truthy (non-empty)
and not `"N/A"`; a `Popularity` field is appended when `metric_info` is
truthy (non-empty) — note the source checks only truthiness for the metric,
not the `"N/A"` sentinel. -/
def discordEmbed (deal_info : DealItem) (source_name : String) : DiscordEmbed :=
  let fields0 : List EmbedField :=
    [⟨"Price", deal_info.price, true⟩, ⟨"Source", source_name, true⟩]
  let fields1 :=
    if deal_info.discount_info ≠ "" ∧ deal_info.discount_info ≠ "N/A" then
      fields0 ++ [⟨"Discount Info", deal_info.discount_info, false⟩]
    else fields0
  let fields2 :=
    if deal_info.metric_info ≠ "" then
      fields1 ++ [⟨"Popularity", deal_info.metric_info, true⟩]
    else fields1
  { title := deal_info.title
    url := deal_info.link
    color := if source_name = "HotUKDeals" then 0xFFA500 else 0x1E90FF
    fields := fields2
    thumbnail_url := deal_info.image_url }

/-- Outcome of the single `requests.post` call (line 44): either a response
with a status code, or a raised `requests.exceptions.RequestException`
carrying a message. -/
inductive PostResult where
  | ok (status : Nat)
  | exn (msg : String)
deriving Repr, DecidableEq

/-- `response.raise_for_status()` (line 45): raises `HTTPError` — a
`RequestException` — exactly on a 4xx or 5xx status. -/
def raise_for_status (status : Nat) : Except String Unit :=
  if 400 ≤ status ∧ status < 600 then
    .error ("HTTPError " ++ toString status)
  else
    .ok ()

/-- The body of the `try` block at lines 44-46: post, then raise on a bad
status. The `Except` layer is the Python exception that may escape. -/
def postAttempt (post : PostResult) : Except String Nat :=
  match post with
  | .exn msg => .error msg
  | .ok s =>
    match raise_for_status s with
    | .error e => .error e
    | .ok _ => .ok s

/-- Observable outcome of one `send_to_discord` call: how many HTTP posts it
made and whether it logged a transport error (line 48). -/
structure SendOutcome where
  attempts : Nat
  errorLogged : Bool
deriving Repr, DecidableEq

/-- `send_to_discord` (lines 14-48), transport part.  When the webhook URL is
unset it returns immediately without posting (lines 16-17).  Otherwise it
posts exactly once; any `RequestException` (including `HTTPError` from
`raise_for_status`) is caught and logged (lines 47-48).  The outer `Except`
layer is an exception escaping the function: an `.error` result would mean
`send_to_discord` raised. -/
def send_to_discord (webhookSet : Bool) (post : PostResult) :
    Except String SendOutcome :=
  if webhookSet then
    match postAttempt post with
    | .ok _ => .ok ⟨1, false⟩
    | .error _ => .ok ⟨1, true⟩
  else
    .ok ⟨0, false⟩

/-- `true` exactly on the `.ok` constructor. -/
def exceptOk {ε α : Type} : Except ε α → Bool
  | .ok _ => true
  | .error _ => false

/-- A parsed HotUKDeals page: the `article.thread--card` results (line 81),
the pagination structure `li.pagination-next` containing an `a` with an
optional `href` (lines 142-146), and the fallback `a.cept-load-more` with
its optional `href` (lines 153-154). -/
structure HukdPage where
  products : List HukdProduct
  nextPageLi : Option (Option (Option String))
  loadMore : Option (Option String)
deriving Repr, DecidableEq

/-- A parsed LatestDeals page: the `div.ld-card.ld-card--deal` results
(line 204) and `li.pagination__item--next` containing `a.pagination__link`
with an optional `href` (lines 265-268). -/
structure LdPage where
  products : List LdProduct
  nextPageLi : Option (Option (Option String))
deriving Repr, DecidableEq

/-- HotUKDeals pagination decision (lines 142-160): if `li.pagination-next`
exists, continue only when it holds an `a` with an `href` (otherwise break —
the load-more fallback is not consulted); if the `li` is absent, continue
only when `a.cept-load-more` with an `href` exists. -/
def hukdNext (page : HukdPage) : Option String :=
  match page.nextPageLi with
  | some (some (some href)) => some href
  | some _ => none
  | none =>
    match page.loadMore with
    | some (some href) => some href
    | _ => none

/-- LatestDeals pagination decision (lines 265-276): continue only when
`li.pagination__item--next` holds an `a.pagination__link` with an `href`. -/
def ldNext (page : LdPage) : Option String :=
  match page.nextPageLi with
  | some (some (some href)) => some href
  | _ => none

/-- The observable state of one scraper run: the `deals_found` list, the
sequence of URLs passed to `requests.get` (line 70/193), and the outcome of
each `send_to_discord` call made so far (line 135/258), in call order. -/
structure RunState where
  deals : List DealItem
  fetched : List String
  sends : List (Except String SendOutcome)
deriving Repr

/-- The `for product in products` loop body (lines 88-137 / 211-260) over a
whole product list: each fragment that passes the completeness gate is
appended to `deals_found` and immediately sent to Discord; `post n` is the
transport outcome of the `n`-th HTTP post of the run. -/
def processProducts {π : Type} (valid : π → Option DealItem)
    (webhookSet : Bool) (post : Nat → PostResult) :
    RunState → List π → RunState
  | st, [] => st
  | st, p :: ps =>
    match valid p with
    | some d =>
      processProducts valid webhookSet post
        { st with
          deals := st.deals ++ [d]
          sends := st.sends ++ [send_to_discord webhookSet (post st.sends.length)] } ps
    | none => processProducts valid webhookSet post st ps

/-- The `while page_num <= max_pages` driver loop (lines 67-171 / 190-286),
shared shape of both scrapers.  `remaining = max_pages - page_num + 1` is
the countdown the loop's guard-plus-increment realises.  One iteration:
fetch the current URL (a `none` fetch is a raised `RequestException`, caught
at line 165/280 → break); break if the product selector matched nothing
(lines 83-86 / 206-209); process every fragment; then follow the pagination
decision or break. -/
def runScrape {pg π : Type} (fetch : String → Option pg)
    (products : pg → List π) (valid : π → Option DealItem)
    (next : pg → Option String) (webhookSet : Bool)
    (post : Nat → PostResult) :
    Nat → String → RunState → RunState
  | 0, _, st => st
  | remaining + 1, url, st =>
    let st1 := { st with fetched := st.fetched ++ [url] }
    match fetch url with
    | none => st1
    | some page =>
      if (products page).isEmpty then st1
      else
        let st2 := processProducts valid webhookSet post st1 (products page)
        match next page with
        | some u =>
          runScrape fetch products valid next webhookSet post remaining u st2
        | none => st2

/-- Start URL of `scrape_hotukdeals` (line 53). -/
def hukd_base_url : String := "https://www.hotukdeals.com/"

/-- Start URL of `scrape_latestdeals` (line 176). -/
def ld_base_url : String := "https://www.latestdeals.co.uk/deals"

/-- `scrape_hotukdeals(max_pages)` (lines 51-171): `deals_found = []`,
`page_num = 1`, `current_url = base_url`, then the driver loop.  With
`page_num` starting at 1, the loop admits `max_pages.toNat` iterations. -/
def scrape_hotukdeals (fetch : String → Option HukdPage) (webhookSet : Bool)
    (post : Nat → PostResult) (max_pages : Int) : RunState :=
  runScrape fetch HukdPage.products processHukdProduct hukdNext webhookSet post
    max_pages.toNat hukd_base_url ⟨[], [], []⟩

/-- `scrape_latestdeals(max_pages)` (lines 174-286). -/
def scrape_latestdeals (fetch : String → Option LdPage) (webhookSet : Bool)
    (post : Nat → PostResult) (max_pages : Int) : RunState :=
  runScrape fetch LdPage.products processLdProduct ldNext webhookSet post
    max_pages.toNat ld_base_url ⟨[], [], []⟩

/-- The spec's "starts with a scheme" test on a URL, stated executably over
the character list. -/
def startsWithScheme (s : String) : Bool :=
  List.isPrefixOf "http://".data s.data || List.isPrefixOf "https://".data s.data

/-- Whether the embed's `fields` list holds an entry with the given name. -/
def hasFieldNamed (e : DiscordEmbed) (nm : String) : Bool :=
  e.fields.any fun f => f.name == nm

/-- Test fixture: a HotUKDeals page holding the same complete listing twice
(two fragments that extract to an identical link). -/
def dupLinkPage : HukdPage :=
  ⟨[⟨some (some ⟨"Deal A", some "https://www.hotukdeals.com/deal-a"⟩),
     some "£5", some "500", none⟩,
    ⟨some (some ⟨"Deal A", some "https://www.hotukdeals.com/deal-a"⟩),
     some "£5", some "500", none⟩],
   none, none⟩

section Lemmas

variable {pg π : Type} (fetch : String → Option pg) (products : pg → List π)
  (valid : π → Option DealItem) (next : pg → Option String)
  (webhookSet : Bool) (post : Nat → PostResult)

theorem processProducts_fetched : ∀ (ps : List π) (st : RunState),
    (processProducts valid webhookSet post st ps).fetched = st.fetched := by
  intro ps
  induction ps with
  | nil => intro st; rfl
  | cons p ps ih =>
    intro st
    cases h : valid p <;> simp only [processProducts, h, ih]

theorem processProducts_deals : ∀ (ps : List π) (st : RunState),
    (processProducts valid webhookSet post st ps).deals
      = st.deals ++ ps.filterMap valid := by
  intro ps
  induction ps with
  | nil => intro st; simp [processProducts]
  | cons p ps ih =>
    intro st
    cases h : valid p <;>
      simp only [processProducts, h, ih, List.filterMap_cons] <;>
      simp [h]

theorem processProducts_sends_length : ∀ (ps : List π) (st : RunState),
    (processProducts valid webhookSet post st ps).sends.length
      = st.sends.length + (ps.filterMap valid).length := by
  intro ps
  induction ps with
  | nil => intro st; simp [processProducts]
  | cons p ps ih =>
    intro st
    cases h : valid p <;>
      simp only [processProducts, h, ih, List.filterMap_cons] <;>
      simp [h] <;> omega

theorem runScrape_zero (url : String) (st : RunState) :
    runScrape fetch products valid next webhookSet post 0 url st = st := rfl

theorem runScrape_fetch_err (k : Nat) (url : String) (st : RunState)
    (h : fetch url = none) :
    runScrape fetch products valid next webhookSet post (k + 1) url st
      = { st with fetched := st.fetched ++ [url] } := by
  simp only [runScrape, h]

/-- With one remaining page, the loop fetches exactly the current URL and
recurses no further, whatever the page holds. -/
theorem runScrape_one_fetched (url : String) (st : RunState) :
    (runScrape fetch products valid next webhookSet post 1 url st).fetched
      = st.fetched ++ [url] := by
  show (runScrape fetch products valid next webhookSet post (0 + 1) url st).fetched
    = st.fetched ++ [url]
  simp only [runScrape]
  cases h : fetch url with
  | none => rfl
  | some page =>
    simp only []
    by_cases hp : (products page).isEmpty
    · simp [hp]
    · simp only [hp, if_neg]
      cases hn : next page with
      | none => simp [hp, processProducts_fetched]
      | some u => simp [hp, hn, runScrape_zero, processProducts_fetched]

/-- In every run segment, one `send_to_discord` call is made per deal added
to `deals_found`. -/
theorem runScrape_sends_eq_deals : ∀ (k : Nat) (url : String) (st : RunState),
    (runScrape fetch products valid next webhookSet post k url st).sends.length
      + st.deals.length
      = (runScrape fetch products valid next webhookSet post k url st).deals.length
      + st.sends.length := by
  intro k
  induction k with
  | zero => intro url st; simp only [runScrape]; omega
  | succ k ih =>
    intro url st
    simp only [runScrape]
    cases h : fetch url with
    | none => simp only []; omega
    | some page =>
      by_cases hp : (products page).isEmpty
      · simp only [hp, if_true]; omega
      · simp only [hp]
        cases hn : next page with
        | none =>
          simp [processProducts_sends_length, processProducts_deals]
          omega
        | some u =>
          simp only []
          have := ih u (processProducts valid webhookSet post
            { st with fetched := st.fetched ++ [url] } (products page))
          simp [processProducts_sends_length, processProducts_deals] at this ⊢
          omega

/-- The deals list and the fetch trace do not depend on the webhook
configuration or on the transport outcomes of the posts. -/
theorem runScrape_indep (webhookSet' : Bool) (post' : Nat → PostResult) :
    ∀ (k : Nat) (url : String) (st st' : RunState),
    st.deals = st'.deals → st.fetched = st'.fetched →
    (runScrape fetch products valid next webhookSet post k url st).deals
      = (runScrape fetch products valid next webhookSet' post' k url st').deals
    ∧ (runScrape fetch products valid next webhookSet post k url st).fetched
      = (runScrape fetch products valid next webhookSet' post' k url st').fetched := by
  intro k
  induction k with
  | zero => intro url st st' hd hf; exact ⟨hd, hf⟩
  | succ k ih =>
    intro url st st' hd hf
    simp only [runScrape]
    cases h : fetch url with
    | none => exact ⟨hd, by simp [hf]⟩
    | some page =>
      simp only []
      by_cases hp : (products page).isEmpty
      · simp [hp, hd, hf]
      · simp only [hp, if_neg]
        cases hn : next page with
        | none =>
          constructor
          · simp [processProducts_deals, hd]
          · simp [processProducts_fetched, hf]
        | some u =>
          exact ih u _ _ (by simp [processProducts_deals, hd])
            (by simp [processProducts_fetched, hf])

end Lemmas

/-! ## Claim theorems -/

/-- C1 (counterexample): the claim says a record whose link is not in the
seen-set is delivered exactly once.  The code keeps no seen-set at all: in a
run whose single page carries two fragments with the same link, the webhook
is posted to twice, once per occurrence. -/
theorem C1_counterexample_duplicate_link_sent_twice :
    (scrape_hotukdeals (fun _ => some dupLinkPage) true
        (fun _ => .ok 200) 1).deals.map DealItem.link
      = ["https://www.hotukdeals.com/deal-a", "https://www.hotukdeals.com/deal-a"]
    ∧ (scrape_hotukdeals (fun _ => some dupLinkPage) true
        (fun _ => .ok 200) 1).sends.length = 2
    ∧ ¬ (scrape_hotukdeals (fun _ => some dupLinkPage) true
        (fun _ => .ok 200) 1).sends.length = 1 := by
  decide

/-- C1 (amended): the scrapers maintain no seen-set — nothing is loaded,
consulted or persisted.  Every record that passes the completeness gate is
sent to Discord exactly once per occurrence: in every full run each scraper
makes exactly one `send_to_discord` call per collected deal. -/
theorem C1_one_send_per_collected_deal :
    ∀ (fetchH : String → Option HukdPage) (fetchL : String → Option LdPage)
      (webhookSet : Bool) (post : Nat → PostResult) (max_pages : Int),
      (scrape_hotukdeals fetchH webhookSet post max_pages).sends.length
        = (scrape_hotukdeals fetchH webhookSet post max_pages).deals.length
      ∧ (scrape_latestdeals fetchL webhookSet post max_pages).sends.length
        = (scrape_latestdeals fetchL webhookSet post max_pages).deals.length := by
  intro fetchH fetchL w post m
  constructor
  · have := runScrape_sends_eq_deals fetchH HukdPage.products processHukdProduct
      hukdNext w post m.toNat hukd_base_url ⟨[], [], []⟩
    simpa [scrape_hotukdeals] using this
  · have := runScrape_sends_eq_deals fetchL LdPage.products processLdProduct
      ldNext w post m.toNat ld_base_url ⟨[], [], []⟩
    simpa [scrape_latestdeals] using this

/-- C2 (counterexample): a fragment whose `href` is the relative `"/p/1"` is
accepted as a valid record with `link = "/p/1"` — the raw href, which starts
with no scheme and was not resolved against the site's base origin. -/
theorem C2_counterexample_relative_link_accepted_unresolved :
    processHukdProduct ⟨some (some ⟨"Widget", some "/p/1"⟩), some "£9.99", none, none⟩
      = some ⟨"Widget", "£9.99", "/p/1", "", "🔥 N/A Heat", "N/A"⟩
    ∧ startsWithScheme "/p/1" = false
    ∧ "/p/1" ≠ "https://www.hotukdeals.com/p/1" := by
  decide

/-- C2 (amended): the `link` of a record is exactly the extracted `href`
attribute, unmodified: no normalization to an absolute URL is performed and
relative hrefs are not resolved against the base origin. -/
theorem C2_link_is_raw_href :
    (∀ (p : HukdProduct) (a : ATag) (s : String),
        p.titleH2 = some (some a) → a.href = some s → (hukdFields p).link = s)
    ∧ (∀ (p : LdProduct) (a : ATag) (s : String),
        p.titleH2 = some (some a) → a.href = some s → (ldFields p).link = s) := by
  constructor
  · intro p a s h1 h2
    simp [hukdFields, h1, h2]
  · intro p a s h1 h2
    simp [ldFields, h1, h2]

/-- Witness for `C2_link_is_raw_href` at concrete fragments. -/
theorem C2_link_is_raw_href_witness :
    (hukdFields ⟨some (some ⟨"W", some "/p/1"⟩), none, none, none⟩).link = "/p/1"
    ∧ (ldFields ⟨some (some ⟨"W", some "/q/2"⟩), none, none, none⟩).link = "/q/2" :=
  ⟨C2_link_is_raw_href.1 _ _ _ rfl rfl, C2_link_is_raw_href.2 _ _ _ rfl rfl⟩

/-- C3 (counterexample): on a rate-limited response (status 429),
`send_to_discord` makes exactly one post attempt — `raise_for_status` turns
the 429 into a caught, logged `RequestException` — and never a second one. -/
theorem C3_counterexample_rate_limit_not_retried :
    send_to_discord true (.ok 429) = .ok ⟨1, true⟩ ∧ (1 : Nat) ≠ 2 :=
  ⟨rfl, by decide⟩

/-- C3 (amended): `send_to_discord` attempts delivery exactly once when a
webhook URL is configured (zero times otherwise); every transport failure,
a rate-limit status included, is logged and never retried, and no sleep or
retry-after handling exists. -/
theorem C3_transport_failures_never_retried :
    ∀ (webhookSet : Bool) (post : PostResult),
      send_to_discord webhookSet post
        = .ok ⟨if webhookSet then 1 else 0,
               webhookSet && !(exceptOk (postAttempt post))⟩ := by
  intro w post
  cases w
  · rfl
  · cases hp : postAttempt post <;> simp [send_to_discord, hp, exceptOk]

/-- C4 (confirmed): a fragment's record is skipped (not collected, not sent)
exactly when at least one of the extracted `title`, `link`, `price` is the
`"N/A"` sentinel; with all three present it is always assembled and
collected. -/
theorem C4_reject_iff_sentinel :
    (∀ p : HukdProduct,
        processHukdProduct p = none
          ↔ (hukdFields p).title = "N/A" ∨ (hukdFields p).link = "N/A"
              ∨ (hukdFields p).price = "N/A")
    ∧ (∀ p : LdProduct,
        processLdProduct p = none
          ↔ (ldFields p).title = "N/A" ∨ (ldFields p).link = "N/A"
              ∨ (ldFields p).price = "N/A") := by
  constructor
  · intro p
    by_cases h1 : (hukdFields p).title = "N/A" <;>
    by_cases h2 : (hukdFields p).link = "N/A" <;>
    by_cases h3 : (hukdFields p).price = "N/A" <;>
      simp [processHukdProduct, h1, h2, h3]
  · intro p
    by_cases h1 : (ldFields p).title = "N/A" <;>
    by_cases h2 : (ldFields p).link = "N/A" <;>
    by_cases h3 : (ldFields p).price = "N/A" <;>
      simp [processLdProduct, h1, h2, h3]

/-- C5 (confirmed): with a page budget of 1, each scraper issues exactly one
page fetch — of its start URL — and stops, for every fetch oracle, so in
particular whether or not the fetched page carries a next-page or load-more
affordance. -/
theorem C5_budget_one_fetches_exactly_one_page :
    ∀ (fetchH : String → Option HukdPage) (fetchL : String → Option LdPage)
      (webhookSet : Bool) (post : Nat → PostResult),
      (scrape_hotukdeals fetchH webhookSet post 1).fetched = [hukd_base_url]
      ∧ (scrape_latestdeals fetchL webhookSet post 1).fetched = [ld_base_url] := by
  intro fH fL w post
  constructor
  · exact runScrape_one_fetched fH HukdPage.products processHukdProduct hukdNext
      w post hukd_base_url ⟨[], [], []⟩
  · exact runScrape_one_fetched fL LdPage.products processLdProduct ldNext
      w post ld_base_url ⟨[], [], []⟩

/-- C6 (confirmed): whenever fetching the current page raises a transport
error (the `requests.exceptions.RequestException` handler at lines 165-167 /
280-282), the driver loop — of which `scrape_hotukdeals` and
`scrape_latestdeals` are the two instances — stops at once: it returns the
deals already collected unchanged, performs that one failing fetch and no
other, and never re-fetches the failed page within the run. -/
theorem C6_fetch_error_stops_run :
    ∀ {pg π : Type} (fetch : String → Option pg) (products : pg → List π)
      (valid : π → Option DealItem) (next : pg → Option String)
      (webhookSet : Bool) (post : Nat → PostResult) (remaining : Nat)
      (url : String) (st : RunState),
      fetch url = none →
      runScrape fetch products valid next webhookSet post (remaining + 1) url st
        = { st with fetched := st.fetched ++ [url] } := by
  intro pg π fetch products valid next w post k url st h
  simp only [runScrape, h]

/-- Witness for `C6_fetch_error_stops_run`: a HotUKDeals run whose first
fetch fails returns no deals and fetched only the start URL. -/
theorem C6_fetch_error_stops_run_witness :
    runScrape (fun _ => (none : Option HukdPage)) HukdPage.products
      processHukdProduct hukdNext true (fun _ => .ok 200) 5 hukd_base_url
      ⟨[], [], []⟩ = ⟨[], [hukd_base_url], []⟩ :=
  C6_fetch_error_stops_run (fun _ => none) HukdPage.products processHukdProduct
    hukdNext true (fun _ => .ok 200) 4 hukd_base_url ⟨[], [], []⟩ rfl

/-- C7 (counterexample): in `scrape_latestdeals`, a fragment whose likes
locator (`span.js-likes-count`) matches nothing yields `"0"` for the metric,
not the `"N/A"` sentinel the claim states. -/
theorem C7_counterexample_likes_default_is_zero :
    (ldFields ⟨some (some ⟨"Widget", some "https://example.com/d"⟩),
        some "£9.99", none, none⟩).likes = "0"
    ∧ ("0" : String) ≠ "N/A" := by
  decide

/-- C7 (amended): extraction never throws (it is total), and a field whose
locator finds no element keeps its initial value: `"N/A"` for title, link
and price on both sites and for the heat metric on HotUKDeals; `"0"` for the
likes metric on LatestDeals; `""` for the image URL.  A found title link
lacking an `href` likewise leaves the link `"N/A"`. -/
theorem C7_locator_miss_yields_default :
    (∀ p : HukdProduct,
        (p.titleH2 = none →
          (hukdFields p).title = "N/A" ∧ (hukdFields p).link = "N/A")
      ∧ (p.titleH2 = some none →
          (hukdFields p).title = "N/A" ∧ (hukdFields p).link = "N/A")
      ∧ (p.priceTag = none → (hukdFields p).price = "N/A")
      ∧ (p.heatTag = none → (hukdFields p).heat = "N/A")
      ∧ (p.imageTag = none → (hukdFields p).image_url = ""))
    ∧ (∀ p : LdProduct,
        (p.titleH2 = none →
          (ldFields p).title = "N/A" ∧ (ldFields p).link = "N/A")
      ∧ (p.titleH2 = some none →
          (ldFields p).title = "N/A" ∧ (ldFields p).link = "N/A")
      ∧ (p.priceTag = none → (ldFields p).price = "N/A")
      ∧ (p.likesTag = none → (ldFields p).likes = "0")
      ∧ (p.imageTag = none → (ldFields p).image_url = "")) := by
  constructor
  · intro p
    refine ⟨fun h => ?_, fun h => ?_, fun h => ?_, fun h => ?_, fun h => ?_⟩ <;>
      simp [hukdFields, h]
  · intro p
    refine ⟨fun h => ?_, fun h => ?_, fun h => ?_, fun h => ?_, fun h => ?_⟩ <;>
      simp [ldFields, h]

/-- Witness for `C7_locator_miss_yields_default` at the all-miss fragments. -/
theorem C7_locator_miss_yields_default_witness :
    (hukdFields ⟨none, none, none, none⟩).title = "N/A"
    ∧ (hukdFields ⟨none, none, none, none⟩).heat = "N/A"
    ∧ (ldFields ⟨none, none, none, none⟩).likes = "0" :=
  ⟨((C7_locator_miss_yields_default.1 ⟨none, none, none, none⟩).1 rfl).1,
   (C7_locator_miss_yields_default.1 ⟨none, none, none, none⟩).2.2.2.1 rfl,
   (C7_locator_miss_yields_default.2 ⟨none, none, none, none⟩).2.2.2.1 rfl⟩

/-- C8 (counterexample): a HotUKDeals fragment with no heat element still
produces `metric_info = "🔥 N/A Heat"`, which is non-empty, so the embed for
its (valid) record carries a Popularity field even though the popularity
metric was never found. -/
theorem C8_counterexample_popularity_despite_sentinel :
    (hukdFields ⟨some (some ⟨"Deal", some "https://example.com/d"⟩),
        some "£5", none, none⟩).heat = "N/A"
    ∧ processHukdProduct ⟨some (some ⟨"Deal", some "https://example.com/d"⟩),
        some "£5", none, none⟩
      = some ⟨"Deal", "£5", "https://example.com/d", "", "🔥 N/A Heat", "N/A"⟩
    ∧ hasFieldNamed
        (discordEmbed ⟨"Deal", "£5", "https://example.com/d", "", "🔥 N/A Heat", "N/A"⟩
          "HotUKDeals") "Popularity" = true := by
  decide

/-- C8 (amended): the embed always carries the Price and Source fields; the
Discount Info field exactly when `discount_info` is non-empty and not
`"N/A"`; and the Popularity field exactly when `metric_info` is non-empty —
truthiness only, with no check against the `"N/A"` sentinel. -/
theorem C8_embed_field_conditions :
    ∀ (deal : DealItem) (source_name : String),
      (⟨"Price", deal.price, true⟩ : EmbedField)
          ∈ (discordEmbed deal source_name).fields
      ∧ (⟨"Source", source_name, true⟩ : EmbedField)
          ∈ (discordEmbed deal source_name).fields
      ∧ (hasFieldNamed (discordEmbed deal source_name) "Discount Info" = true
          ↔ deal.discount_info ≠ "" ∧ deal.discount_info ≠ "N/A")
      ∧ (hasFieldNamed (discordEmbed deal source_name) "Popularity" = true
          ↔ deal.metric_info ≠ "") := by
  intro d src
  by_cases hd : d.discount_info ≠ "" ∧ d.discount_info ≠ "N/A" <;>
  by_cases hm : d.metric_info ≠ "" <;>
    simp [discordEmbed, hasFieldNamed, hd, hm]

/-- C9 (confirmed): with a page budget of zero or less, the loop guard
`page_num <= max_pages` fails at once: no page is fetched, nothing is sent,
and the returned deals list is empty. -/
theorem C9_nonpositive_budget_no_fetch :
    ∀ (fetchH : String → Option HukdPage) (fetchL : String → Option LdPage)
      (webhookSet : Bool) (post : Nat → PostResult) (max_pages : Int),
      max_pages ≤ 0 →
      scrape_hotukdeals fetchH webhookSet post max_pages = ⟨[], [], []⟩
      ∧ scrape_latestdeals fetchL webhookSet post max_pages = ⟨[], [], []⟩ := by
  intro fH fL w post m hm
  have h0 : m.toNat = 0 := Int.toNat_eq_zero.mpr hm
  constructor
  · simp [scrape_hotukdeals, h0, runScrape]
  · simp [scrape_latestdeals, h0, runScrape]

/-- Witness for `C9_nonpositive_budget_no_fetch` at budget 0. -/
theorem C9_nonpositive_budget_no_fetch_witness :
    scrape_hotukdeals (fun _ => none) true (fun _ => .ok 200) 0 = ⟨[], [], []⟩
    ∧ scrape_latestdeals (fun _ => none) true (fun _ => .ok 200) 0 = ⟨[], [], []⟩ :=
  C9_nonpositive_budget_no_fetch (fun _ => none) (fun _ => none) true
    (fun _ => .ok 200) 0 (by decide)

/-- C10 (confirmed): `send_to_discord` never lets a transport exception
escape — every `requests` failure, a non-2xx status included, is caught and
logged inside it — and consequently neither the collected deals list nor the
fetch/pagination trace of a run depends on the webhook configuration or on
any post's outcome. -/
theorem C10_send_never_raises_deals_unchanged :
    (∀ (webhookSet : Bool) (post : PostResult),
        exceptOk (send_to_discord webhookSet post) = true)
    ∧ ∀ (fetchH : String → Option HukdPage) (fetchL : String → Option LdPage)
        (w w' : Bool) (post post' : Nat → PostResult) (max_pages : Int),
        (scrape_hotukdeals fetchH w post max_pages).deals
          = (scrape_hotukdeals fetchH w' post' max_pages).deals
        ∧ (scrape_hotukdeals fetchH w post max_pages).fetched
          = (scrape_hotukdeals fetchH w' post' max_pages).fetched
        ∧ (scrape_latestdeals fetchL w post max_pages).deals
          = (scrape_latestdeals fetchL w' post' max_pages).deals
        ∧ (scrape_latestdeals fetchL w post max_pages).fetched
          = (scrape_latestdeals fetchL w' post' max_pages).fetched := by
  constructor
  · intro w post
    cases w
    · rfl
    · cases hp : postAttempt post <;> simp [send_to_discord, hp, exceptOk]
  · intro fH fL w w' post post' m
    have hH := runScrape_indep fH HukdPage.products processHukdProduct hukdNext
      w post w' post' m.toNat hukd_base_url ⟨[], [], []⟩ ⟨[], [], []⟩ rfl rfl
    have hL := runScrape_indep fL LdPage.products processLdProduct ldNext
      w post w' post' m.toNat ld_base_url ⟨[], [], []⟩ ⟨[], [], []⟩ rfl rfl
    exact ⟨hH.1, hH.2, hL.1, hL.2⟩
